import Mathlib

/-!
Verification of the entitlement and subscription logic of the book
subscription service (backend/main.py), as a shallow embedding: SQLite
tables become Lean lists kept in rowid (insertion) order, each FastAPI
endpoint becomes an explicit state-passing function returning the HTTP
outcome together with the possibly-updated database, and bcrypt's salted
hash is an abstract function parameter.
-/

namespace BookSub

/-- An HTTP error as raised by `HTTPException(status_code=..., detail=...)`. -/
structure HTTPError where
  status_code : Nat
  detail : String
  deriving DecidableEq, Repr

/-- Spec name `DuplicateIdentity`: main.py line 183. -/
def DuplicateIdentity : HTTPError := ⟨400, "Email already registered"⟩

/-- Spec name `InvalidCredentials`: main.py line 198. -/
def InvalidCredentials : HTTPError := ⟨401, "Invalid credentials"⟩

/-- Spec name `InvalidToken`: main.py lines 154 and 157. -/
def InvalidToken : HTTPError := ⟨401, "Invalid token"⟩

/-- Spec name `NotFound` for items: main.py line 229. -/
def BookNotFound : HTTPError := ⟨404, "Book not found"⟩

/-- Spec name `NotFound` for plans: main.py line 289. -/
def PlanNotFound : HTTPError := ⟨404, "Subscription plan not found"⟩

/-- Spec name `AlreadyOwned`: main.py line 237. -/
def AlreadyOwned : HTTPError := ⟨400, "Book already in library"⟩

/-- Spec name `EntitlementDenied`: main.py line 241. -/
def EntitlementDenied : HTTPError := ⟨403, "Premium subscription required"⟩

/-- Spec name `NotOwned`: main.py line 268. -/
def NotOwned : HTTPError := ⟨404, "Book not in your library"⟩

/-- Row of table `users` (main.py lines 40-50).  `created_at` is a
timestamp modelled as a natural number of seconds. -/
structure User where
  id : Nat
  email : String
  hashed_password : String
  is_active : Bool
  subscription_plan : String
  created_at : Nat
  deriving DecidableEq, Repr

/-- Row of table `books` (main.py lines 52-63).  The Float `price` is
modelled as a rational; no operation computes with it. -/
structure Book where
  id : Nat
  title : String
  author : String
  genre : String
  description : String
  price : Rat
  is_premium : Bool
  deriving DecidableEq, Repr

/-- Row of table `subscription_plans` (main.py lines 65-72). -/
structure SubscriptionPlan where
  id : Nat
  name : String
  price : Rat
  description : String
  max_books : Nat
  deriving DecidableEq, Repr

/-- Row of table `user_books` (main.py lines 74-84): one Ownership record. -/
structure UserBook where
  id : Nat
  user_id : Nat
  book_id : Nat
  is_read : Bool
  added_at : Nat
  deriving DecidableEq, Repr

/-- The whole relational store.  Each list holds a table's rows in rowid
order; the `next_*` counters model SQLite's autoincrementing primary keys. -/
structure DB where
  users : List User
  books : List Book
  subscription_plans : List SubscriptionPlan
  user_books : List UserBook
  next_user_id : Nat
  next_book_id : Nat
  next_plan_id : Nat
  next_user_book_id : Nat
  deriving DecidableEq, Repr

/-- The freshly created, empty database (`Base.metadata.create_all`). -/
def initDB : DB := ⟨[], [], [], [], 1, 1, 1, 1⟩

/-- main.py line 22. -/
def SECRET_KEY : String := "your-secret-key-change-this-in-production"

/-- main.py line 24. -/
def ACCESS_TOKEN_EXPIRE_MINUTES : Nat := 30

/-- The claims payload passed to `create_access_token` (`{"sub": email}`;
`sub` may be absent, which `verify_token` checks for). -/
structure TokenData where
  sub : Option String
  deriving DecidableEq, Repr

/-- A signed JWT, modelled as its payload together with the key it was
signed with; `jwt.decode` with the right key recovers exactly this data. -/
structure JwtToken where
  sub : Option String
  exp : Nat
  key : String
  deriving DecidableEq, Repr

/-- main.py lines 142-147: sets `exp = now + ACCESS_TOKEN_EXPIRE_MINUTES`
and signs with `SECRET_KEY`. -/
def create_access_token (data : TokenData) (now : Nat) : JwtToken :=
  ⟨data.sub, now + ACCESS_TOKEN_EXPIRE_MINUTES * 60, SECRET_KEY⟩

/-- main.py lines 149-157: `jwt.decode` fails (PyJWTError, caught as a 401)
when the signature key differs or the expiry is not in the future
(PyJWT rejects when `exp ≤ now`); a payload without `sub` is also a 401. -/
def verify_token (tok : JwtToken) (now : Nat) : Except HTTPError String :=
  if tok.key = SECRET_KEY ∧ now < tok.exp then
    match tok.sub with
    | some email => .ok email
    | none => .error InvalidToken
  else .error InvalidToken

/-- main.py lines 159-163: resolve the token's email to a stored user. -/
def get_current_user (email : String) (db : DB) : Except HTTPError User :=
  match db.users.find? (fun u => u.email == email) with
  | some user => .ok user
  | none => .error ⟨401, "User not found"⟩

/-- main.py lines 178-192 (`POST /register`).  `hashfn` abstracts
`hash_password` = bcrypt.hashpw with a fresh salt; `now` the clock.
Column defaults: `is_active=True`, `subscription_plan="free"`. -/
def register (hashfn : String → String) (now : Nat) (email password : String)
    (db : DB) : Except HTTPError User × DB :=
  match db.users.find? (fun u => u.email == email) with
  | some _ => (.error DuplicateIdentity, db)
  | none =>
    let db_user : User := ⟨db.next_user_id, email, hashfn password, true, "free", now⟩
    (.ok db_user,
     { db with users := db.users ++ [db_user], next_user_id := db.next_user_id + 1 })

/-- main.py lines 194-201 (`POST /login`).  `checkpw` abstracts
`verify_password` = bcrypt.checkpw. -/
def login (checkpw : String → String → Bool) (now : Nat) (email password : String)
    (db : DB) : Except HTTPError JwtToken × DB :=
  match db.users.find? (fun u => u.email == email) with
  | none => (.error InvalidCredentials, db)
  | some db_user =>
    if checkpw password db_user.hashed_password then
      (.ok (create_access_token ⟨some email⟩ now), db)
    else (.error InvalidCredentials, db)

/-- main.py lines 220-248 (`POST /books/{book_id}/add-to-library`): the
acquire operation.  Checks existence, prior ownership, entitlement, and
only then inserts the Ownership record (commit). -/
def add_book_to_library (now : Nat) (book_id : Nat) (current_user : User)
    (db : DB) : Except HTTPError String × DB :=
  match db.books.find? (fun b => b.id == book_id) with
  | none => (.error BookNotFound, db)
  | some book =>
    match db.user_books.find?
        (fun ub => ub.user_id == current_user.id && ub.book_id == book_id) with
    | some _ => (.error AlreadyOwned, db)
    | none =>
      if book.is_premium && current_user.subscription_plan == "free" then
        (.error EntitlementDenied, db)
      else
        let user_book : UserBook := ⟨db.next_user_book_id, current_user.id, book_id, false, now⟩
        (.ok "Book added to library",
         { db with user_books := db.user_books ++ [user_book],
                   next_user_book_id := db.next_user_book_id + 1 })

/-- main.py lines 250-254 (`GET /my-books`): the user's Ownership rows in
table order, each mapped to its related `Book` row (the `user_book.book`
relationship, `none` if the foreign key does not resolve). -/
def get_my_books (current_user : User) (db : DB) : List (Option Book) :=
  (db.user_books.filter (fun ub => ub.user_id == current_user.id)).map
    (fun ub => db.books.find? (fun b => b.id == ub.book_id))

/-- main.py lines 107-117: the response model used by `GET /books`,
`GET /books/{id}` and `GET /my-books`.  Its exact field list — note the
absence of any read flag. -/
structure BookResponse where
  id : Nat
  title : String
  author : String
  genre : String
  description : String
  price : Rat
  is_premium : Bool
  deriving DecidableEq, Repr

/-- FastAPI's `from_attributes` serialization of a `Book` into the
response model. -/
def bookResponse (b : Book) : BookResponse :=
  ⟨b.id, b.title, b.author, b.genre, b.description, b.price, b.is_premium⟩

/-- The JSON body `GET /my-books` actually returns: `get_my_books`
serialized through `BookResponse`. -/
def my_books_response (current_user : User) (db : DB) : List (Option BookResponse) :=
  (get_my_books current_user db).map (Option.map bookResponse)

/-- The in-place row mutation `user_book.is_read = True` of main.py line
270, applied to the table: the row with the given primary key gets its
`is_read` flag set. -/
def setRead (i : Nat) (ub : UserBook) : UserBook :=
  if ub.id == i then { ub with is_read := true } else ub

/-- main.py lines 256-273 (`POST /books/{book_id}/mark-read`): markRead.
Finds the Ownership row for the pair, 404 if absent, else sets its
`is_read` flag (the row is mutated in place, identified here by its id). -/
def mark_book_as_read (book_id : Nat) (current_user : User)
    (db : DB) : Except HTTPError String × DB :=
  match db.user_books.find?
      (fun ub => ub.user_id == current_user.id && ub.book_id == book_id) with
  | none => (.error NotOwned, db)
  | some user_book =>
    (.ok "Book marked as read",
     { db with user_books := db.user_books.map (setRead user_book.id) })

/-- The in-place row mutation `current_user.subscription_plan = plan.name`
of main.py line 291, applied to the table: the row with the given primary
key gets the new plan name. -/
def setPlan (uid : Nat) (name : String) (u : User) : User :=
  if u.id == uid then { u with subscription_plan := name } else u

/-- main.py lines 281-294 (`POST /subscribe/{plan_id}`): switchPlan.
404 if the plan is unknown, else the current user's row gets the plan's
name (the row mutated in place, identified by its id). -/
def subscribe_to_plan (plan_id : Nat) (current_user : User)
    (db : DB) : Except HTTPError String × DB :=
  match db.subscription_plans.find? (fun p => p.id == plan_id) with
  | none => (.error PlanNotFound, db)
  | some plan =>
    (.ok ("Successfully subscribed to " ++ plan.name ++ " plan"),
     { db with users := db.users.map (setPlan current_user.id plan.name) })

/-- main.py lines 297-331 (`POST /seed-data`): populates plans and books
once, when the books table is empty. -/
def seed_data (db : DB) : Except HTTPError String × DB :=
  if db.books.isEmpty = false then (.ok "Data already exists", db)
  else
    let plans : List SubscriptionPlan :=
      [⟨db.next_plan_id, "free", 0, "Access to basic books", 5⟩,
       ⟨db.next_plan_id + 1, "premium", 9.99, "Access to all books", 100⟩,
       ⟨db.next_plan_id + 2, "unlimited", 19.99, "Unlimited access", 999⟩]
    let books : List Book :=
      [⟨db.next_book_id, "The Python Guide", "John Doe", "Programming",
        "Learn Python programming", 29.99, false⟩,
       ⟨db.next_book_id + 1, "Advanced FastAPI", "Jane Smith", "Programming",
        "Master FastAPI development", 39.99, true⟩,
       ⟨db.next_book_id + 2, "Data Science Handbook", "Bob Johnson", "Data Science",
        "Complete guide to data science", 49.99, true⟩,
       ⟨db.next_book_id + 3, "Web Development Basics", "Alice Brown", "Web Development",
        "HTML, CSS, JavaScript fundamentals", 19.99, false⟩,
       ⟨db.next_book_id + 4, "Machine Learning Primer", "Charlie Wilson", "AI/ML",
        "Introduction to machine learning", 34.99, true⟩]
    (.ok "Sample data created successfully",
     { db with subscription_plans := db.subscription_plans ++ plans,
               books := db.books ++ books,
               next_plan_id := db.next_plan_id + 3,
               next_book_id := db.next_book_id + 5 })

/-- The states the service can reach: the empty schema, grown by the
mutating endpoints.  Authenticated endpoints act for a user resolved by
`get_current_user` from the email carried in a valid token. -/
inductive Reachable : DB → Prop where
  | init : Reachable initDB
  | seed : ∀ {db : DB}, Reachable db → Reachable (seed_data db).2
  | reg : ∀ {db : DB} (hashfn : String → String) (now : Nat) (email password : String),
      Reachable db → Reachable (register hashfn now email password db).2
  | log : ∀ {db : DB} (checkpw : String → String → Bool) (now : Nat) (email password : String),
      Reachable db → Reachable (login checkpw now email password db).2
  | acquire : ∀ {db : DB} (now book_id : Nat) (email : String) (u : User),
      Reachable db → get_current_user email db = .ok u →
      Reachable (add_book_to_library now book_id u db).2
  | markRead : ∀ {db : DB} (book_id : Nat) (email : String) (u : User),
      Reachable db → get_current_user email db = .ok u →
      Reachable (mark_book_as_read book_id u db).2
  | switchPlan : ∀ {db : DB} (plan_id : Nat) (email : String) (u : User),
      Reachable db → get_current_user email db = .ok u →
      Reachable (subscribe_to_plan plan_id u db).2

/-- A concrete stand-in for bcrypt's salted hash, used in concrete runs. -/
def hashW : String → String := fun s => "hash:" ++ s

/-- A concrete stand-in for bcrypt's hash check matching `hashW`. -/
def checkW : String → String → Bool := fun password hashed => hashed == hashW password

/-- The database right after `POST /seed-data` on a fresh schema. -/
def dbSeeded : DB := (seed_data initDB).2

/-- Seeded database after registering the user `a@x.com`. -/
def dbW : DB := (register hashW 0 "a@x.com" "pw1" dbSeeded).2

/-- The `User` row `register` creates for `a@x.com` (free plan). -/
def uW : User := ⟨1, "a@x.com", hashW "pw1", true, "free", 0⟩

/-- `dbW` after `a@x.com` acquires book 1 (a non-premium book) at time 7. -/
def dbW2 : DB := (add_book_to_library 7 1 uW dbW).2

/-- A premium-plan user for the read-visibility scenario. -/
def uC : User := ⟨1, "c@x.com", "hc", true, "premium", 0⟩

/-- A minimal database where `uC` owns book 1 and has not read it. -/
def dbC : DB :=
  ⟨[uC], [⟨1, "T", "A", "G", "D", 0, true⟩], [], [⟨1, 1, 1, false, 0⟩], 2, 2, 1, 2⟩

/-- Structural well-formedness every reachable database enjoys. -/
structure Inv (db : DB) : Prop where
  ub_pairs : db.user_books.Pairwise
    (fun a b => ¬(a.user_id = b.user_id ∧ a.book_id = b.book_id))
  ub_order : db.user_books.Pairwise (fun a b => a.id < b.id)
  ub_id_bound : ∀ ub ∈ db.user_books, ub.id < db.next_user_book_id
  ub_book_fk : ∀ ub ∈ db.user_books, ∃ b ∈ db.books, b.id = ub.book_id
  book_ids : db.books.Pairwise (fun a b => a.id ≠ b.id)
  book_id_bound : ∀ b ∈ db.books, b.id < db.next_book_id

/-! ### Invariant preservation along every endpoint -/

theorem setRead_id (i : Nat) (ub : UserBook) : (setRead i ub).id = ub.id := by
  unfold setRead; split <;> rfl

theorem setRead_user_id (i : Nat) (ub : UserBook) :
    (setRead i ub).user_id = ub.user_id := by
  unfold setRead; split <;> rfl

theorem setRead_book_id (i : Nat) (ub : UserBook) :
    (setRead i ub).book_id = ub.book_id := by
  unfold setRead; split <;> rfl

theorem inv_initDB : Inv initDB := by
  refine ⟨?_, ?_, ?_, ?_, ?_, ?_⟩ <;> simp [initDB]

theorem inv_seed {db : DB} (h : Inv db) : Inv (seed_data db).2 := by
  cases hbooks : db.books with
  | cons b t =>
    have hdb : (seed_data db).2 = db := by simp [seed_data, hbooks]
    rw [hdb]; exact h
  | nil =>
    have hdb : (seed_data db).2 =
        { db with
          subscription_plans := db.subscription_plans ++
            [⟨db.next_plan_id, "free", 0, "Access to basic books", 5⟩,
             ⟨db.next_plan_id + 1, "premium", 9.99, "Access to all books", 100⟩,
             ⟨db.next_plan_id + 2, "unlimited", 19.99, "Unlimited access", 999⟩],
          books :=
            [⟨db.next_book_id, "The Python Guide", "John Doe", "Programming",
              "Learn Python programming", 29.99, false⟩,
             ⟨db.next_book_id + 1, "Advanced FastAPI", "Jane Smith", "Programming",
              "Master FastAPI development", 39.99, true⟩,
             ⟨db.next_book_id + 2, "Data Science Handbook", "Bob Johnson", "Data Science",
              "Complete guide to data science", 49.99, true⟩,
             ⟨db.next_book_id + 3, "Web Development Basics", "Alice Brown", "Web Development",
              "HTML, CSS, JavaScript fundamentals", 19.99, false⟩,
             ⟨db.next_book_id + 4, "Machine Learning Primer", "Charlie Wilson", "AI/ML",
              "Introduction to machine learning", 34.99, true⟩],
          next_plan_id := db.next_plan_id + 3,
          next_book_id := db.next_book_id + 5 } := by
      simp [seed_data, hbooks]
    rw [hdb]
    refine ⟨h.ub_pairs, h.ub_order, h.ub_id_bound, ?_, ?_, ?_⟩
    · intro ub hub
      have hfk := h.ub_book_fk ub hub
      rw [hbooks] at hfk
      simp at hfk
    · simp [List.pairwise_cons]
    · intro b hb
      simp at hb
      rcases hb with h1 | h1 | h1 | h1 | h1 <;> rw [h1] <;> simp

theorem inv_register {db : DB} (hashfn : String → String) (now : Nat)
    (email password : String) (h : Inv db) :
    Inv (register hashfn now email password db).2 := by
  unfold register
  cases hf : db.users.find? (fun u => u.email == email) with
  | some u => exact h
  | none =>
    exact ⟨h.ub_pairs, h.ub_order, h.ub_id_bound, h.ub_book_fk, h.book_ids, h.book_id_bound⟩

theorem inv_login {db : DB} (checkpw : String → String → Bool) (now : Nat)
    (email password : String) (h : Inv db) :
    Inv (login checkpw now email password db).2 := by
  cases hf : db.users.find? (fun u => u.email == email) with
  | none =>
    have hdb : (login checkpw now email password db).2 = db := by
      simp [login, hf]
    rw [hdb]; exact h
  | some u =>
    have hdb : (login checkpw now email password db).2 = db := by
      simp [login, hf, apply_ite]
    rw [hdb]; exact h

theorem inv_acquire {db : DB} (now book_id : Nat) (u : User) (h : Inv db) :
    Inv (add_book_to_library now book_id u db).2 := by
  cases hbk : db.books.find? (fun b => b.id == book_id) with
  | none =>
    have hdb : (add_book_to_library now book_id u db).2 = db := by
      simp [add_book_to_library, hbk]
    rw [hdb]; exact h
  | some book =>
    cases hex : db.user_books.find?
        (fun ub => ub.user_id == u.id && ub.book_id == book_id) with
    | some w =>
      have hdb : (add_book_to_library now book_id u db).2 = db := by
        simp [add_book_to_library, hbk, hex]
      rw [hdb]; exact h
    | none =>
      by_cases hc : (book.is_premium && u.subscription_plan == "free") = true
      · have hdb : (add_book_to_library now book_id u db).2 = db := by
          simp [add_book_to_library, hbk, hex, hc]
        rw [hdb]; exact h
      · have hdb : (add_book_to_library now book_id u db).2 =
            { db with
              user_books := db.user_books ++
                [⟨db.next_user_book_id, u.id, book_id, false, now⟩],
              next_user_book_id := db.next_user_book_id + 1 } := by
          simp [add_book_to_library, hbk, hex, hc]
        rw [hdb]
        have hnot : ∀ ub ∈ db.user_books, ¬(ub.user_id = u.id ∧ ub.book_id = book_id) := by
          intro ub hub
          have := List.find?_eq_none.mp hex ub hub
          simpa using this
        refine ⟨?_, ?_, ?_, ?_, h.book_ids, h.book_id_bound⟩
        · rw [List.pairwise_append]
          refine ⟨h.ub_pairs, by simp, ?_⟩
          intro a ha b hb
          simp only [List.mem_singleton] at hb
          subst hb
          intro hcon
          exact hnot a ha ⟨hcon.1, hcon.2⟩
        · rw [List.pairwise_append]
          refine ⟨h.ub_order, by simp, ?_⟩
          intro a ha b hb
          simp only [List.mem_singleton] at hb
          subst hb
          exact h.ub_id_bound a ha
        · intro ub hub
          rcases List.mem_append.mp hub with h1 | h1
          · exact Nat.lt_trans (h.ub_id_bound ub h1) (Nat.lt_succ_self _)
          · simp only [List.mem_singleton] at h1
            subst h1
            exact Nat.lt_succ_self _
        · intro ub hub
          rcases List.mem_append.mp hub with h1 | h1
          · exact h.ub_book_fk ub h1
          · simp only [List.mem_singleton] at h1
            subst h1
            refine ⟨book, List.mem_of_find?_eq_some hbk, ?_⟩
            have := List.find?_some hbk
            simpa using this

theorem inv_markRead {db : DB} (book_id : Nat) (u : User) (h : Inv db) :
    Inv (mark_book_as_read book_id u db).2 := by
  cases hf : db.user_books.find?
      (fun ub => ub.user_id == u.id && ub.book_id == book_id) with
  | none =>
    have hdb : (mark_book_as_read book_id u db).2 = db := by
      simp [mark_book_as_read, hf]
    rw [hdb]; exact h
  | some w =>
    have hdb : (mark_book_as_read book_id u db).2 =
        { db with user_books := db.user_books.map (setRead w.id) } := by
      simp [mark_book_as_read, hf]
    rw [hdb]
    refine ⟨?_, ?_, ?_, ?_, h.book_ids, h.book_id_bound⟩
    · rw [List.pairwise_map]
      refine List.Pairwise.imp ?_ h.ub_pairs
      intro a b hab
      simpa [setRead_user_id, setRead_book_id] using hab
    · rw [List.pairwise_map]
      refine List.Pairwise.imp ?_ h.ub_order
      intro a b hab
      simpa [setRead_id] using hab
    · intro ub hub
      rcases List.mem_map.mp hub with ⟨x, hx, rfl⟩
      rw [setRead_id]
      exact h.ub_id_bound x hx
    · intro ub hub
      rcases List.mem_map.mp hub with ⟨x, hx, rfl⟩
      rw [setRead_book_id]
      exact h.ub_book_fk x hx

theorem inv_subscribe {db : DB} (plan_id : Nat) (u : User) (h : Inv db) :
    Inv (subscribe_to_plan plan_id u db).2 := by
  unfold subscribe_to_plan
  cases hp : db.subscription_plans.find? (fun p => p.id == plan_id) with
  | none => exact h
  | some plan =>
    exact ⟨h.ub_pairs, h.ub_order, h.ub_id_bound, h.ub_book_fk, h.book_ids, h.book_id_bound⟩

/-- Every reachable database satisfies the structural invariant. -/
theorem reachable_inv {db : DB} (h : Reachable db) : Inv db := by
  induction h with
  | init => exact inv_initDB
  | seed _ ih => exact inv_seed ih
  | reg hashfn now email password _ ih => exact inv_register hashfn now email password ih
  | log checkpw now email password _ ih => exact inv_login checkpw now email password ih
  | acquire now book_id email u _ _ ih => exact inv_acquire now book_id u ih
  | markRead book_id email u _ _ ih => exact inv_markRead book_id u ih
  | switchPlan plan_id email u _ _ ih => exact inv_subscribe plan_id u ih

/-! ### Lookup and row-update lemmas -/

theorem books_find?_eq {l : List Book} (hids : l.Pairwise (fun a b => a.id ≠ b.id))
    {b : Book} {bid : Nat} (hb : b ∈ l) (hbid : b.id = bid) :
    l.find? (fun x => x.id == bid) = some b := by
  induction l with
  | nil => cases hb
  | cons a t ih =>
    rcases List.mem_cons.mp hb with h1 | hbt
    · subst h1
      have ha : (b.id == bid) = true := by simp [hbid]
      simp [List.find?_cons, ha]
    · have hane : a.id ≠ bid := by
        have h1 := (List.pairwise_cons.mp hids).1 b hbt
        rw [hbid] at h1
        exact h1
      have hfa : (a.id == bid) = false := by simp [hane]
      simp only [List.find?_cons, hfa]
      exact ih (List.pairwise_cons.mp hids).2 hbt

theorem map_find?_to_books (books : List Book) :
    ∀ l : List UserBook, (∀ ub ∈ l, ∃ b ∈ books, b.id = ub.book_id) →
    ∃ bs : List Book,
      l.map (fun ub => books.find? (fun b => b.id == ub.book_id)) = bs.map some ∧
      List.Forall₂ (fun ub b => b ∈ books ∧ b.id = ub.book_id) l bs := by
  intro l
  induction l with
  | nil => exact fun _ => ⟨[], rfl, List.Forall₂.nil⟩
  | cons ub t ih =>
    intro hfk
    obtain ⟨b0, hb0, hid0⟩ := hfk ub (List.mem_cons_self ub t)
    obtain ⟨b', hb'⟩ : ∃ b', books.find? (fun b => b.id == ub.book_id) = some b' := by
      cases hf : books.find? (fun b => b.id == ub.book_id) with
      | some b' => exact ⟨b', rfl⟩
      | none =>
        exfalso
        have hno := List.find?_eq_none.mp hf b0 hb0
        simp [hid0] at hno
    obtain ⟨bs, hmap, hfa⟩ := ih (fun x hx => hfk x (List.mem_cons_of_mem ub hx))
    refine ⟨b' :: bs, ?_, ?_⟩
    · simp [hb', hmap]
    · refine List.Forall₂.cons ⟨List.mem_of_find?_eq_some hb', ?_⟩ hfa
      have := List.find?_some hb'
      simpa using this

theorem markRead_none {db : DB} {book_id : Nat} {u : User}
    (hf : db.user_books.find?
      (fun ub => ub.user_id == u.id && ub.book_id == book_id) = none) :
    mark_book_as_read book_id u db = (.error NotOwned, db) := by
  simp [mark_book_as_read, hf]

theorem markRead_found {db : DB} {book_id : Nat} {u : User} {found : UserBook}
    (hf : db.user_books.find?
      (fun ub => ub.user_id == u.id && ub.book_id == book_id) = some found) :
    mark_book_as_read book_id u db =
      (.ok "Book marked as read",
       { db with user_books := db.user_books.map (setRead found.id) }) := by
  simp [mark_book_as_read, hf]

theorem comp_setRead_pair (i uid bid : Nat) :
    (fun ub : UserBook => ub.user_id == uid && ub.book_id == bid) ∘ setRead i =
    (fun ub : UserBook => ub.user_id == uid && ub.book_id == bid) := by
  funext ub
  simp [Function.comp, setRead_user_id, setRead_book_id]

theorem comp_setRead_user (i uid : Nat) :
    (fun ub : UserBook => ub.user_id == uid) ∘ setRead i =
    (fun ub : UserBook => ub.user_id == uid) := by
  funext ub
  simp [Function.comp, setRead_user_id]

theorem setRead_setRead (i : Nat) : setRead i ∘ setRead i = setRead i := by
  funext ub
  by_cases hid : (ub.id == i) = true
  · simp [setRead, Function.comp, hid]
  · simp [setRead, Function.comp, hid]

theorem get_my_books_setRead (u' : User) (db : DB) (i : Nat) :
    get_my_books u' { db with user_books := db.user_books.map (setRead i) } =
    get_my_books u' db := by
  show ((db.user_books.map (setRead i)).filter (fun ub => ub.user_id == u'.id)).map
      (fun ub => db.books.find? (fun b => b.id == ub.book_id)) =
    (db.user_books.filter (fun ub => ub.user_id == u'.id)).map
      (fun ub => db.books.find? (fun b => b.id == ub.book_id))
  rw [List.filter_map, comp_setRead_user, List.map_map]
  congr 1
  funext ub
  simp [Function.comp, setRead_book_id]

theorem markRead_sets_found_flag {db : DB} {book_id : Nat} {u : User} {found : UserBook}
    (hf : db.user_books.find?
      (fun ub => ub.user_id == u.id && ub.book_id == book_id) = some found) :
    ∃ ub ∈ (mark_book_as_read book_id u db).2.user_books,
      ub.user_id = u.id ∧ ub.book_id = book_id ∧ ub.is_read = true := by
  have heq := markRead_found hf
  have hpair : found.user_id = u.id ∧ found.book_id = book_id := by
    have := List.find?_some hf
    simpa using this
  obtain ⟨hfu, hfb⟩ := hpair
  refine ⟨setRead found.id found, ?_, ?_, ?_, ?_⟩
  · rw [heq]
    exact List.mem_map_of_mem (setRead found.id) (List.mem_of_find?_eq_some hf)
  · rw [setRead_user_id]; exact hfu
  · rw [setRead_book_id]; exact hfb
  · simp [setRead]

/-- Reachability of the concrete seeded database. -/
theorem reachable_dbSeeded : Reachable dbSeeded := Reachable.seed Reachable.init

/-- Reachability of the seeded database with user `a@x.com` registered. -/
theorem reachable_dbW : Reachable dbW :=
  Reachable.reg hashW 0 "a@x.com" "pw1" reachable_dbSeeded

/-- Reachability after `a@x.com` acquires book 1. -/
theorem reachable_dbW2 : Reachable dbW2 :=
  Reachable.acquire 7 1 "a@x.com" uW reachable_dbW rfl

/-! ### The claims -/

/-- C1: Non-revocation on downgrade.  A successful `subscribe_to_plan`
(in particular a switch to the free tier) leaves every Ownership record
and the catalog unchanged, `get_my_books` returns the same list as before
(so every previously acquired item, premium ones included, is still
listed), and `mark_book_as_read` still succeeds on every owned item. -/
theorem downgrade_non_revocation
    (plan_id : Nat) (u : User) (db : DB) (msg : String) (db' : DB)
    (hok : subscribe_to_plan plan_id u db = (.ok msg, db')) :
    db'.user_books = db.user_books ∧
    db'.books = db.books ∧
    (∀ u' : User, u'.id = u.id → get_my_books u' db' = get_my_books u db) ∧
    (∀ b : Book, some b ∈ get_my_books u db →
      ∀ u' : User, u'.id = u.id → some b ∈ get_my_books u' db') ∧
    (∀ (book_id : Nat) (u' : User), u'.id = u.id →
      (∃ ub ∈ db.user_books, ub.user_id = u.id ∧ ub.book_id = book_id) →
      (mark_book_as_read book_id u' db').1 = .ok "Book marked as read") := by
  cases hp : db.subscription_plans.find? (fun p => p.id == plan_id) with
  | none => simp [subscribe_to_plan, hp, PlanNotFound] at hok
  | some plan =>
    have hdb : db' = { db with users := db.users.map (setPlan u.id plan.name) } := by
      have h2 : (subscribe_to_plan plan_id u db).2 = db' := congrArg Prod.snd hok
      rw [← h2]
      simp [subscribe_to_plan, hp]
    subst hdb
    have hgm : ∀ u' : User, u'.id = u.id →
        get_my_books u' { db with users := db.users.map (setPlan u.id plan.name) } =
        get_my_books u db := by
      intro u' hu'
      simp [get_my_books, hu']
    refine ⟨rfl, rfl, hgm, ?_, ?_⟩
    · intro b hb u' hu'
      rw [hgm u' hu']
      exact hb
    · rintro book_id u' hu' ⟨ub, hum, hu1, hb1⟩
      cases hfp : db.user_books.find?
          (fun x => x.user_id == u'.id && x.book_id == book_id) with
      | none =>
        exfalso
        have hno := List.find?_eq_none.mp hfp ub hum
        simp [hu1, hu', hb1] at hno
      | some found =>
        simp [mark_book_as_read, hfp]

/-- C2: Acquire postcondition and denial condition.  In any reachable
state, acquire fails with `EntitlementDenied` exactly when the item
exists, is not already owned, its premium flag is set and the caller's
plan at the moment of the call is `"free"`; in every other case where the
item exists and is not already owned, acquire succeeds and appends
exactly one Ownership record with `is_read = false` and the current
timestamp. -/
theorem acquire_characterization
    (now book_id : Nat) (u : User) (db : DB) (h : Reachable db) :
    ((add_book_to_library now book_id u db).1 = .error EntitlementDenied ↔
      (∃ b ∈ db.books, b.id = book_id ∧ b.is_premium = true) ∧
      (∀ ub ∈ db.user_books, ¬(ub.user_id = u.id ∧ ub.book_id = book_id)) ∧
      u.subscription_plan = "free") ∧
    (∀ b ∈ db.books, b.id = book_id →
      (∀ ub ∈ db.user_books, ¬(ub.user_id = u.id ∧ ub.book_id = book_id)) →
      ¬(b.is_premium = true ∧ u.subscription_plan = "free") →
      add_book_to_library now book_id u db =
        (.ok "Book added to library",
         { db with
           user_books := db.user_books ++
             [⟨db.next_user_book_id, u.id, book_id, false, now⟩],
           next_user_book_id := db.next_user_book_id + 1 })) := by
  have hids := (reachable_inv h).book_ids
  constructor
  · constructor
    · intro he
      cases hbk : db.books.find? (fun b => b.id == book_id) with
      | none => simp [add_book_to_library, hbk, BookNotFound, EntitlementDenied] at he
      | some book =>
        cases hex : db.user_books.find?
            (fun ub => ub.user_id == u.id && ub.book_id == book_id) with
        | some w => simp [add_book_to_library, hbk, hex, AlreadyOwned, EntitlementDenied] at he
        | none =>
          by_cases hc : (book.is_premium && u.subscription_plan == "free") = true
          · have hsplit : book.is_premium = true ∧ u.subscription_plan = "free" := by
              simpa using hc
            refine ⟨⟨book, List.mem_of_find?_eq_some hbk, ?_, hsplit.1⟩, ?_, hsplit.2⟩
            · have := List.find?_some hbk
              simpa using this
            · intro ub hub
              have := List.find?_eq_none.mp hex ub hub
              simpa using this
          · exfalso
            simp [add_book_to_library, hbk, hex, hc, EntitlementDenied] at he
    · rintro ⟨⟨b, hbmem, hbid, hprem⟩, hnotown, hfree⟩
      have hbk : db.books.find? (fun x => x.id == book_id) = some b :=
        books_find?_eq hids hbmem hbid
      have hex : db.user_books.find?
          (fun ub => ub.user_id == u.id && ub.book_id == book_id) = none := by
        rw [List.find?_eq_none]
        intro x hx
        have := hnotown x hx
        simpa using this
      have hc : (b.is_premium && u.subscription_plan == "free") = true := by
        simp [hprem, hfree]
      simp [add_book_to_library, hbk, hex, hc]
  · intro b hbmem hbid hnotown hnc
    have hbk : db.books.find? (fun x => x.id == book_id) = some b :=
      books_find?_eq hids hbmem hbid
    have hex : db.user_books.find?
        (fun ub => ub.user_id == u.id && ub.book_id == book_id) = none := by
      rw [List.find?_eq_none]
      intro x hx
      have := hnotown x hx
      simpa using this
    have hc : (b.is_premium && u.subscription_plan == "free") = false := by
      cases hb1 : b.is_premium with
      | false => simp
      | true =>
        have hnf : u.subscription_plan ≠ "free" := fun hcon => hnc ⟨hb1, hcon⟩
        simp [hnf]
    simp [add_book_to_library, hbk, hex, hc]

/-- C3: Ownership uniqueness.  Every reachable state holds at most one
Ownership record per (user, item) pair, and after a successful acquire a
second acquire of the same pair fails with `AlreadyOwned`, changes
nothing, and exactly one Ownership row for the pair exists. -/
theorem ownership_uniqueness (db : DB) (h : Reachable db) :
    db.user_books.Pairwise
      (fun a b => ¬(a.user_id = b.user_id ∧ a.book_id = b.book_id)) ∧
    ∀ (now now' book_id : Nat) (u : User),
      (add_book_to_library now book_id u db).1 = .ok "Book added to library" →
      (add_book_to_library now' book_id u (add_book_to_library now book_id u db).2).1 =
        .error AlreadyOwned ∧
      (add_book_to_library now' book_id u (add_book_to_library now book_id u db).2).2 =
        (add_book_to_library now book_id u db).2 ∧
      (add_book_to_library now book_id u db).2.user_books.countP
        (fun ub => ub.user_id == u.id && ub.book_id == book_id) = 1 := by
  refine ⟨(reachable_inv h).ub_pairs, ?_⟩
  intro now now' book_id u hok
  cases hbk : db.books.find? (fun b => b.id == book_id) with
  | none => exfalso; simp [add_book_to_library, hbk, BookNotFound] at hok
  | some book =>
    cases hex : db.user_books.find?
        (fun ub => ub.user_id == u.id && ub.book_id == book_id) with
    | some w => exfalso; simp [add_book_to_library, hbk, hex, AlreadyOwned] at hok
    | none =>
      by_cases hc : (book.is_premium && u.subscription_plan == "free") = true
      · exfalso; simp [add_book_to_library, hbk, hex, hc, EntitlementDenied] at hok
      · have hdb1 : (add_book_to_library now book_id u db).2 =
            { db with
              user_books := db.user_books ++
                [⟨db.next_user_book_id, u.id, book_id, false, now⟩],
              next_user_book_id := db.next_user_book_id + 1 } := by
          simp [add_book_to_library, hbk, hex, hc]
        rw [hdb1]
        have hex2 : (db.user_books ++
            [(⟨db.next_user_book_id, u.id, book_id, false, now⟩ : UserBook)]).find?
            (fun ub => ub.user_id == u.id && ub.book_id == book_id) =
            some ⟨db.next_user_book_id, u.id, book_id, false, now⟩ := by
          rw [List.find?_append, hex]
          simp [List.find?_cons]
        refine ⟨?_, ?_, ?_⟩
        · simp [add_book_to_library, hbk, hex2]
        · simp [add_book_to_library, hbk, hex2]
        · show (db.user_books ++
              [(⟨db.next_user_book_id, u.id, book_id, false, now⟩ : UserBook)]).countP
              (fun ub => ub.user_id == u.id && ub.book_id == book_id) = 1
          rw [List.countP_append]
          have h0 : db.user_books.countP
              (fun ub => ub.user_id == u.id && ub.book_id == book_id) = 0 := by
            rw [List.countP_eq_zero]
            intro a ha
            exact List.find?_eq_none.mp hex a ha
          rw [h0]
          simp [List.countP_cons]

/-- C4: Failure atomicity.  For each of register, authenticate (login),
acquire, markRead and switchPlan: whenever the operation returns an
error, the database afterwards is exactly the database before the call
(in particular a failed acquire leaves no Ownership record). -/
theorem failure_atomicity (db : DB) :
    (∀ (hashfn : String → String) (now : Nat) (email password : String) (e : HTTPError),
      (register hashfn now email password db).1 = .error e →
      (register hashfn now email password db).2 = db) ∧
    (∀ (checkpw : String → String → Bool) (now : Nat) (email password : String)
      (e : HTTPError),
      (login checkpw now email password db).1 = .error e →
      (login checkpw now email password db).2 = db) ∧
    (∀ (now book_id : Nat) (u : User) (e : HTTPError),
      (add_book_to_library now book_id u db).1 = .error e →
      (add_book_to_library now book_id u db).2 = db) ∧
    (∀ (book_id : Nat) (u : User) (e : HTTPError),
      (mark_book_as_read book_id u db).1 = .error e →
      (mark_book_as_read book_id u db).2 = db) ∧
    (∀ (plan_id : Nat) (u : User) (e : HTTPError),
      (subscribe_to_plan plan_id u db).1 = .error e →
      (subscribe_to_plan plan_id u db).2 = db) := by
  refine ⟨?_, ?_, ?_, ?_, ?_⟩
  · intro hashfn now email password e he
    cases hf : db.users.find? (fun x => x.email == email) with
    | some x => simp [register, hf]
    | none => exfalso; simp [register, hf] at he
  · intro checkpw now email password e he
    cases hf : db.users.find? (fun x => x.email == email) with
    | none => simp [login, hf]
    | some x =>
      by_cases hc : checkpw password x.hashed_password = true
      · exfalso; simp [login, hf, hc] at he
      · simp [login, hf, hc]
  · intro now book_id u e he
    cases hbk : db.books.find? (fun b => b.id == book_id) with
    | none => simp [add_book_to_library, hbk]
    | some book =>
      cases hex : db.user_books.find?
          (fun ub => ub.user_id == u.id && ub.book_id == book_id) with
      | some w => simp [add_book_to_library, hbk, hex]
      | none =>
        by_cases hc : (book.is_premium && u.subscription_plan == "free") = true
        · simp [add_book_to_library, hbk, hex, hc]
        · exfalso; simp [add_book_to_library, hbk, hex, hc] at he
  · intro book_id u e he
    cases hf : db.user_books.find?
        (fun ub => ub.user_id == u.id && ub.book_id == book_id) with
    | none => simp [mark_book_as_read, hf]
    | some w => exfalso; simp [mark_book_as_read, hf] at he
  · intro plan_id u e he
    cases hp : db.subscription_plans.find? (fun p => p.id == plan_id) with
    | none => simp [subscribe_to_plan, hp]
    | some plan => exfalso; simp [subscribe_to_plan, hp] at he

/-- C5: Registration uniqueness and default plan.  If a user with the
given email exists, register fails with `DuplicateIdentity` whatever the
password, leaving the state unchanged; otherwise it stores the hash of
the password (never the raw secret: the stored field is `hashfn
password`, where `hashfn` abstracts bcrypt's salted one-way hash), and
returns the new identity with plan `"free"`. -/
theorem register_spec (hashfn : String → String) (now : Nat) (email p2 : String)
    (db : DB) :
    ((∃ us ∈ db.users, us.email = email) →
      register hashfn now email p2 db = (.error DuplicateIdentity, db)) ∧
    ((∀ us ∈ db.users, us.email ≠ email) →
      register hashfn now email p2 db =
        (.ok ⟨db.next_user_id, email, hashfn p2, true, "free", now⟩,
         { db with
           users := db.users ++ [⟨db.next_user_id, email, hashfn p2, true, "free", now⟩],
           next_user_id := db.next_user_id + 1 })) := by
  constructor
  · rintro ⟨us, hmem, hemail⟩
    obtain ⟨u0, hu0⟩ : ∃ u0, db.users.find? (fun x => x.email == email) = some u0 := by
      cases hfu : db.users.find? (fun x => x.email == email) with
      | some u0 => exact ⟨u0, rfl⟩
      | none =>
        exfalso
        have := List.find?_eq_none.mp hfu us hmem
        simp [hemail] at this
    simp [register, hu0]
  · intro hall
    have hfu : db.users.find? (fun x => x.email == email) = none := by
      rw [List.find?_eq_none]
      intro x hx
      have := hall x hx
      simpa using this
    simp [register, hfu]

/-- C6: markRead behaviour.  If no Ownership record exists for the pair,
markRead fails with `NotOwned`; otherwise it sets the found record's read
flag to true, and calling it again on the resulting state succeeds and
leaves the state unchanged (idempotent). -/
theorem markRead_spec (book_id : Nat) (u : User) (db : DB) :
    ((∀ ub ∈ db.user_books, ¬(ub.user_id = u.id ∧ ub.book_id = book_id)) →
      mark_book_as_read book_id u db = (.error NotOwned, db)) ∧
    ∀ found,
      db.user_books.find?
        (fun ub => ub.user_id == u.id && ub.book_id == book_id) = some found →
      mark_book_as_read book_id u db =
        (.ok "Book marked as read",
         { db with user_books := db.user_books.map (setRead found.id) }) ∧
      (∃ ub ∈ (mark_book_as_read book_id u db).2.user_books,
        ub.user_id = u.id ∧ ub.book_id = book_id ∧ ub.is_read = true) ∧
      mark_book_as_read book_id u (mark_book_as_read book_id u db).2 =
        (.ok "Book marked as read", (mark_book_as_read book_id u db).2) := by
  constructor
  · intro hnone
    apply markRead_none
    rw [List.find?_eq_none]
    intro x hx
    have := hnone x hx
    simpa using this
  · intro found hf
    have heq := markRead_found hf
    refine ⟨heq, markRead_sets_found_flag hf, ?_⟩
    rw [heq]
    have hf2 : (db.user_books.map (setRead found.id)).find?
        (fun ub => ub.user_id == u.id && ub.book_id == book_id) =
        some (setRead found.id found) := by
      rw [List.find?_map, comp_setRead_pair, hf]
      rfl
    have heq2 := @markRead_found
      { db with user_books := db.user_books.map (setRead found.id) }
      book_id u (setRead found.id found) hf2
    rw [heq2]
    rw [setRead_id, List.map_map, setRead_setRead]

/-- C7: Token round-trip and expiry.  Resolving a freshly issued token at
the instant of issuance returns the subject email; resolving the same
token at any instant from the end of the fixed expiry window onwards
fails with `InvalidToken`. -/
theorem token_roundtrip (email : String) (now t : Nat) :
    verify_token (create_access_token ⟨some email⟩ now) now = .ok email ∧
    (now + ACCESS_TOKEN_EXPIRE_MINUTES * 60 ≤ t →
      verify_token (create_access_token ⟨some email⟩ now) t = .error InvalidToken) := by
  constructor
  · have hlt : now < now + ACCESS_TOKEN_EXPIRE_MINUTES * 60 := by
      unfold ACCESS_TOKEN_EXPIRE_MINUTES
      omega
    simp [verify_token, create_access_token, hlt]
  · intro ht
    have hnlt : ¬(t < now + ACCESS_TOKEN_EXPIRE_MINUTES * 60) := Nat.not_lt.mpr ht
    simp [verify_token, create_access_token, hnlt]

/-- C8: listOwned ordering.  In every reachable state the Ownership table
is ordered by strictly increasing record id (creation order, since ids
are assigned in increasing order as acquisitions occur), and
`get_my_books` returns one catalog item per Ownership record of the user,
in exactly that order, each with the owned item's id. -/
theorem listOwned_creation_order (db : DB) (h : Reachable db) (u : User) :
    db.user_books.Pairwise (fun a b => a.id < b.id) ∧
    ∃ bs : List Book,
      get_my_books u db = bs.map some ∧
      List.Forall₂ (fun ub b => b ∈ db.books ∧ b.id = ub.book_id)
        (db.user_books.filter (fun ub => ub.user_id == u.id)) bs := by
  refine ⟨(reachable_inv h).ub_order, ?_⟩
  have hfk : ∀ ub ∈ db.user_books.filter (fun ub => ub.user_id == u.id),
      ∃ b ∈ db.books, b.id = ub.book_id := by
    intro ub hub
    exact (reachable_inv h).ub_book_fk ub (List.mem_of_mem_filter hub)
  obtain ⟨bs, hmap, hfa⟩ := map_find?_to_books db.books _ hfk
  exact ⟨bs, hmap, hfa⟩

/-- C9 (counterexample): the claim "after markRead the /my-books response
shows the item with read=true" is false on the code.  In the concrete
state `dbC` the user owns book 1 unread; markRead succeeds and flips the
stored flag to true, yet the `GET /my-books` response — serialized
through `BookResponse`, which has no read field — is exactly the response
of the pre-state in which the item was unread, so the response shows no
read state at all. -/
theorem read_state_not_in_response :
    (mark_book_as_read 1 uC dbC).1 = .ok "Book marked as read" ∧
    (∃ ub ∈ dbC.user_books, ub.user_id = uC.id ∧ ub.book_id = 1 ∧ ub.is_read = false) ∧
    (∃ ub ∈ (mark_book_as_read 1 uC dbC).2.user_books,
      ub.user_id = uC.id ∧ ub.book_id = 1 ∧ ub.is_read = true) ∧
    my_books_response uC (mark_book_as_read 1 uC dbC).2 = my_books_response uC dbC := by
  refine ⟨rfl, ⟨⟨1, 1, 1, false, 0⟩, ?_, rfl, rfl, rfl⟩,
    ⟨⟨1, 1, 1, true, 0⟩, ?_, rfl, rfl, rfl⟩, rfl⟩
  · simp [dbC]
  · show ⟨1, 1, 1, true, 0⟩ ∈ (mark_book_as_read 1 uC dbC).2.user_books
    decide

/-- C9 (amended): after a user marks an owned item as read, the Ownership
record's read flag is true and `GET /my-books` still lists the item, but
the response model exposes no read field, so the response body is
unchanged by markRead — it does not show read=true. -/
theorem markRead_response_unchanged
    (book_id : Nat) (u : User) (db : DB) (found : UserBook)
    (hf : db.user_books.find?
      (fun ub => ub.user_id == u.id && ub.book_id == book_id) = some found) :
    (∃ ub ∈ (mark_book_as_read book_id u db).2.user_books,
      ub.user_id = u.id ∧ ub.book_id = book_id ∧ ub.is_read = true) ∧
    get_my_books u (mark_book_as_read book_id u db).2 = get_my_books u db ∧
    my_books_response u (mark_book_as_read book_id u db).2 = my_books_response u db := by
  have heq := markRead_found hf
  have hgm : get_my_books u (mark_book_as_read book_id u db).2 = get_my_books u db := by
    rw [heq]
    exact get_my_books_setRead u db found.id
  refine ⟨markRead_sets_found_flag hf, hgm, ?_⟩
  unfold my_books_response
  rw [hgm]

/-- C10: markRead never distinguishes a nonexistent item from an unowned
one.  Whenever no Ownership record exists for the pair — the item itself
may be entirely absent from the catalog — markRead fails with the 404
error "Book not in your library", and its outcome is independent of the
catalog contents because the operation never consults the books table. -/
theorem markRead_ignores_catalog (book_id : Nat) (u : User) (db : DB) :
    ((∀ ub ∈ db.user_books, ¬(ub.user_id = u.id ∧ ub.book_id = book_id)) →
      mark_book_as_read book_id u db = (.error ⟨404, "Book not in your library"⟩, db)) ∧
    ∀ books2 : List Book,
      (mark_book_as_read book_id u { db with books := books2 }).1 =
        (mark_book_as_read book_id u db).1 := by
  constructor
  · intro hnone
    have hf : db.user_books.find?
        (fun ub => ub.user_id == u.id && ub.book_id == book_id) = none := by
      rw [List.find?_eq_none]
      intro x hx
      have := hnone x hx
      simpa using this
    exact markRead_none hf
  · intro books2
    cases hf : db.user_books.find?
        (fun ub => ub.user_id == u.id && ub.book_id == book_id) with
    | none =>
      rw [markRead_none hf, @markRead_none { db with books := books2 } book_id u hf]
    | some w =>
      rw [markRead_found hf, @markRead_found { db with books := books2 } book_id u w hf]

/-! ### Concrete witnesses -/

theorem dbW_books_eq : dbW.books =
    [⟨1, "The Python Guide", "John Doe", "Programming",
      "Learn Python programming", 29.99, false⟩,
     ⟨2, "Advanced FastAPI", "Jane Smith", "Programming",
      "Master FastAPI development", 39.99, true⟩,
     ⟨3, "Data Science Handbook", "Bob Johnson", "Data Science",
      "Complete guide to data science", 49.99, true⟩,
     ⟨4, "Web Development Basics", "Alice Brown", "Web Development",
      "HTML, CSS, JavaScript fundamentals", 19.99, false⟩,
     ⟨5, "Machine Learning Primer", "Charlie Wilson", "AI/ML",
      "Introduction to machine learning", 34.99, true⟩] := by
  simp [dbW, dbSeeded, seed_data, initDB, register]

/-- C1 witness: on the concrete state where `a@x.com` owns book 1,
switching to the free plan (plan 1) keeps the Ownership table and
markRead still succeeds. -/
theorem downgrade_non_revocation_witness :
    (subscribe_to_plan 1 uW dbW2).2.user_books = dbW2.user_books ∧
    (mark_book_as_read 1 uW (subscribe_to_plan 1 uW dbW2).2).1 =
      .ok "Book marked as read" := by
  have h := downgrade_non_revocation 1 uW dbW2 "Successfully subscribed to free plan"
    (subscribe_to_plan 1 uW dbW2).2 rfl
  exact ⟨h.1, h.2.2.2.2 1 uW rfl ⟨⟨1, 1, 1, false, 7⟩, by decide, rfl, rfl⟩⟩

/-- C2 witness: acquiring premium book 2 on the free plan is denied,
while acquiring non-premium book 4 succeeds and appends one record. -/
theorem acquire_characterization_witness :
    (add_book_to_library 0 2 uW dbW).1 = .error EntitlementDenied ∧
    add_book_to_library 0 4 uW dbW =
      (.ok "Book added to library",
       { dbW with user_books := dbW.user_books ++ [⟨1, 1, 4, false, 0⟩],
                  next_user_book_id := 2 }) := by
  have h := acquire_characterization 0 2 uW dbW reachable_dbW
  have h4 := acquire_characterization 0 4 uW dbW reachable_dbW
  constructor
  · exact h.1.mpr ⟨⟨⟨2, "Advanced FastAPI", "Jane Smith", "Programming",
      "Master FastAPI development", 39.99, true⟩, by rw [dbW_books_eq]; simp, rfl, rfl⟩,
      by decide, rfl⟩
  · exact h4.2 ⟨4, "Web Development Basics", "Alice Brown", "Web Development",
      "HTML, CSS, JavaScript fundamentals", 19.99, false⟩
      (by rw [dbW_books_eq]; simp) rfl (by decide) (by decide)

/-- C3 witness: acquiring book 1 twice from the concrete registered state
gives `AlreadyOwned` the second time and exactly one Ownership row. -/
theorem ownership_uniqueness_witness :
    (add_book_to_library 9 1 uW (add_book_to_library 7 1 uW dbW).2).1 =
      .error AlreadyOwned ∧
    (add_book_to_library 7 1 uW dbW).2.user_books.countP
      (fun ub => ub.user_id == uW.id && ub.book_id == 1) = 1 := by
  have h := (ownership_uniqueness dbW reachable_dbW).2 7 9 1 uW rfl
  exact ⟨h.1, h.2.2⟩

/-- C4 witness: one concrete failing call of each operation leaves the
concrete database untouched. -/
theorem failure_atomicity_witness :
    (register hashW 5 "a@x.com" "pw2" dbW).2 = dbW ∧
    (login checkW 5 "a@x.com" "bad" dbW).2 = dbW ∧
    (add_book_to_library 5 99 uW dbW).2 = dbW ∧
    (mark_book_as_read 1 uW dbW).2 = dbW ∧
    (subscribe_to_plan 99 uW dbW).2 = dbW := by
  have h := failure_atomicity dbW
  exact ⟨h.1 hashW 5 "a@x.com" "pw2" DuplicateIdentity rfl,
         h.2.1 checkW 5 "a@x.com" "bad" InvalidCredentials rfl,
         h.2.2.1 5 99 uW BookNotFound rfl,
         h.2.2.2.1 1 uW NotOwned rfl,
         h.2.2.2.2 99 uW PlanNotFound rfl⟩

/-- C5 witness: re-registering `a@x.com` fails with `DuplicateIdentity`
whatever the new password; registering a fresh email stores the hashed
password and the free plan. -/
theorem register_spec_witness :
    register hashW 5 "a@x.com" "pw2" dbW = (.error DuplicateIdentity, dbW) ∧
    register hashW 5 "b@x.com" "pw2" dbW =
      (.ok ⟨2, "b@x.com", hashW "pw2", true, "free", 5⟩,
       { dbW with users := dbW.users ++ [⟨2, "b@x.com", hashW "pw2", true, "free", 5⟩],
                  next_user_id := 3 }) := by
  exact ⟨(register_spec hashW 5 "a@x.com" "pw2" dbW).1 ⟨uW, by decide, rfl⟩,
         (register_spec hashW 5 "b@x.com" "pw2" dbW).2 (by decide)⟩

/-- C6 witness: on the concrete state where `a@x.com` owns book 1,
markRead of unowned book 2 fails with `NotOwned`; markRead of book 1 sets
the flag and is idempotent. -/
theorem markRead_spec_witness :
    mark_book_as_read 2 uW dbW2 = (.error NotOwned, dbW2) ∧
    mark_book_as_read 1 uW dbW2 =
      (.ok "Book marked as read",
       { dbW2 with user_books := dbW2.user_books.map (setRead 1) }) ∧
    mark_book_as_read 1 uW (mark_book_as_read 1 uW dbW2).2 =
      (.ok "Book marked as read", (mark_book_as_read 1 uW dbW2).2) := by
  have h1 := (markRead_spec 2 uW dbW2).1 (by decide)
  have h2 := (markRead_spec 1 uW dbW2).2 ⟨1, 1, 1, false, 7⟩ rfl
  exact ⟨h1, h2.1, h2.2.2⟩

/-- C7 witness: a token issued at time 100 resolves to its subject at
time 100 and is rejected at time 1900 = 100 + 30·60. -/
theorem token_roundtrip_witness :
    verify_token (create_access_token ⟨some "a@x.com"⟩ 100) 100 = .ok "a@x.com" ∧
    verify_token (create_access_token ⟨some "a@x.com"⟩ 100) 1900 = .error InvalidToken := by
  have h := token_roundtrip "a@x.com" 100 1900
  exact ⟨h.1, h.2 (by decide)⟩

/-- C8 witness: the listOwned ordering property at the concrete state
where `a@x.com` owns book 1. -/
theorem listOwned_creation_order_witness :
    dbW2.user_books.Pairwise (fun a b => a.id < b.id) ∧
    ∃ bs : List Book,
      get_my_books uW dbW2 = bs.map some ∧
      List.Forall₂ (fun ub b => b ∈ dbW2.books ∧ b.id = ub.book_id)
        (dbW2.user_books.filter (fun ub => ub.user_id == uW.id)) bs :=
  listOwned_creation_order dbW2 reachable_dbW2 uW

/-- C9 witness: the amended claim at the concrete read-visibility state. -/
theorem markRead_response_unchanged_witness :
    (∃ ub ∈ (mark_book_as_read 1 uC dbC).2.user_books,
      ub.user_id = uC.id ∧ ub.book_id = 1 ∧ ub.is_read = true) ∧
    get_my_books uC (mark_book_as_read 1 uC dbC).2 = get_my_books uC dbC ∧
    my_books_response uC (mark_book_as_read 1 uC dbC).2 = my_books_response uC dbC :=
  markRead_response_unchanged 1 uC dbC ⟨1, 1, 1, false, 0⟩ rfl

/-- C10 witness: marking never-acquired book 5 fails with the NotOwned
404 even on a catalog emptied of every book. -/
theorem markRead_ignores_catalog_witness :
    mark_book_as_read 5 uW dbW = (.error ⟨404, "Book not in your library"⟩, dbW) ∧
    (mark_book_as_read 5 uW { dbW with books := [] }).1 =
      (mark_book_as_read 5 uW dbW).1 := by
  have h := markRead_ignores_catalog 5 uW dbW
  exact ⟨h.1 (by decide), h.2 []⟩

end BookSub
